import Mathlib

/-!
Formal model of the Wallet-Service transaction engine.

The development shallowly embeds the data model (`app/models/*`), the
repository layer (`app/repositories/*`) and the transaction engine
(`app/services/transaction_service.py`) of the wallet ledger service, and
settles the specified properties against them.

The decisive feature of the source is an arity mismatch at the engine's
locking step.  `wallet_repository.py` defines

  `def get_wallet_with_lock(db: Session, wallet_id: int) -> Optional[Wallet]`

— two parameters, keyed by the wallet primary key — while every call site in
`transaction_service.py` (steps 3 of `process_topup`, `process_bonus` and
`process_spend`, and the re-lock after lazy wallet creation) invokes it with
three arguments, `(db, owner_user_id, asset_type_id)`.  Python rejects such a
call with `TypeError` before the function body runs, inside the service's
`try`, before the system-wallet presence check, the lazy wallet creation, the
funds checks, the PENDING insert and every balance or ledger write.  The
`except Exception` handler then rolls back (nothing has been written),
attempts the best-effort FAILED update with `transaction_id` unbound (so
`None` is passed and the update finds no row), commits, and re-raises.
Consequently the engine's reachable behaviours are exactly three: the
idempotency short-circuit of step 1, the `ValueError` of step 2 for an
unknown asset code, and the `TypeError` of step 3 — and no movement ever
acquires a lock, creates a wallet, inserts a transaction row, writes a
ledger entry or changes a balance.  The model encodes these behaviours
directly; the repository functions themselves (including the two-parameter
`get_wallet_with_lock` and the unreachable `create_wallet`,
`create_transaction`, `update_wallet_balance` and `create_ledger_entry`) are
modelled faithfully for reference.

Other modelling conventions:
* Monetary amounts are `Decimal(20, 8)` values in the source; decimal
  arithmetic there is exact, so balances and amounts are modelled as `Int`
  (the value scaled by 10^8).  `user_id` is a signed integer (system wallets
  own negative ids).
* `transaction_id` is a UUID string in the source; the model draws fresh ids
  from the counter `Store.next_tx_id`, which preserves the only property the
  source relies on: global uniqueness.  Wallet primary keys come from the
  counter `Store.next_wallet_id` in the same way.
* The store is a record of lists.  `db.commit()` makes the current state
  durable; `db.rollback()` discards changes made since the last commit.  On
  every reachable engine path the rollback and the final commit act on an
  unchanged session, so the store an operation returns equals the store it
  was given.
* `BonusRequest` and `SpendRequest` are imported by the service from
  `app.schemas.transaction` but are absent from that file; per the spec
  ("same body shape") they carry the same fields and constraints as
  `TopupRequest`, so all three are modelled by `MovementRequest`.
-/

namespace WalletService

/-- Exact decimal(20,8) money value, scaled to an integer. -/
abbrev Money := Int

/-- Asset type row (`app/models/asset_types.py`). -/
structure AssetType where
  id : Nat
  code : String
  display_name : String
  is_active : Bool
deriving Repr, DecidableEq

/-- Wallet row (`app/models/wallet.py`). -/
structure Wallet where
  id : Nat
  user_id : Int
  asset_type_id : Nat
  balance : Money
  is_system_wallet : Bool
  system_wallet_type : Option String
deriving Repr, DecidableEq

/-- Transaction row (`app/models/transaction.py`). -/
structure Transaction where
  transaction_id : Nat
  idempotency_key : String
  transaction_type : String
  user_id : Int
  asset_type_id : Nat
  amount : Money
  status : String
  transaction_metadata : Option String
  error_message : Option String
  completed_at : Option Nat
deriving Repr, DecidableEq

/-- Ledger entry row (`app/models/ledger.py`). -/
structure LedgerEntry where
  transaction_id : Nat
  wallet_id : Nat
  entry_type : String
  amount : Money
  balance_before : Money
  balance_after : Money
  description : String
deriving Repr, DecidableEq

/-- The durable store: the four tables plus the id-generation counters and
the clock used for `completed_at`. -/
structure Store where
  asset_types : List AssetType
  wallets : List Wallet
  transactions : List Transaction
  ledger_entries : List LedgerEntry
  next_wallet_id : Nat
  next_tx_id : Nat
  now : Nat
deriving Repr, DecidableEq

/-- Movement request body (`app/schemas/transaction.py`, `TopupRequest`;
`BonusRequest`/`SpendRequest` are modelled from the spec: the service imports
them from the same module but the class definitions are missing from the
source file, and the spec fixes the same body shape for all three kinds). -/
structure MovementRequest where
  idempotency_key : String
  user_id : Int
  asset_type : String
  amount : Money
  transaction_metadata : Option String
deriving Repr, DecidableEq

/-- Schema-level validation carried by the request types: both `user_id` and
`amount` are declared with `Field(..., gt=0)`. -/
def ValidReq (r : MovementRequest) : Prop :=
  0 < r.user_id ∧ 0 < r.amount

instance : DecidablePred ValidReq := fun r => by unfold ValidReq; infer_instance

/-- Reserved system owner ids (`app/utils/constants.py`). -/
def TREASURY_USER_ID : Int := -1

/-- Reserved system owner id of the marketing wallet. -/
def MARKETING_USER_ID : Int := -2

/-- Reserved system owner id of the revenue wallet. -/
def REVENUE_USER_ID : Int := -3

/-- Error taxonomy visible to the engine.  `valueError` and `typeError`
model Python's builtin `ValueError` (raised for unknown asset codes) and
`TypeError` (raised by the arity-mismatched lock calls);
`insufficientFunds` and `duplicateTransaction` model the typed exceptions of
`app/utils/exceptions.py`; `generic` models any other exception reaching the
engine's catch-all handler. -/
inductive WErr where
  | valueError (msg : String)
  | typeError (msg : String)
  | insufficientFunds (msg : String)
  | duplicateTransaction (msg : String)
  | generic (msg : String)
deriving Repr, DecidableEq

/-- Python exception class of an engine error: this is the only information
the boundary's `except` clauses can dispatch on. -/
def errClass : WErr → String
  | .valueError _ => "ValueError"
  | .typeError _ => "TypeError"
  | .insufficientFunds _ => "InsufficientFundsError"
  | .duplicateTransaction _ => "DuplicateTransactionError"
  | .generic _ => "Exception"

instance {α β : Type} [DecidableEq α] [DecidableEq β] : DecidableEq (Except α β)
  | .error a, .error b =>
      if h : a = b then .isTrue (by rw [h]) else .isFalse (by intro hc; cases hc; exact h rfl)
  | .error _, .ok _ => .isFalse (by intro hc; cases hc)
  | .ok _, .error _ => .isFalse (by intro hc; cases hc)
  | .ok a, .ok b =>
      if h : a = b then .isTrue (by rw [h]) else .isFalse (by intro hc; cases hc; exact h rfl)

/-- Result of one engine invocation: the returned transaction or raised
error, the durable store after the call, and the trace of row-lock requests
`(asset_type_id, owner user_id)` actually issued to the store.  The staged
engine issues none: the `TypeError` of the three-argument call to the
two-parameter `get_wallet_with_lock` is raised during call binding, before
any `SELECT ... FOR UPDATE` executes. -/
structure EngineResult where
  result : Except WErr Transaction
  store : Store
  locks : List (Nat × Int)
deriving Repr, DecidableEq

/-! ## Repository layer -/

/-- Model of `transaction_repo.get_by_idempotency_key`
(`app/repositories/transaction_repository.py`). -/
def get_by_idempotency_key (s : Store) (key : String) : Option Transaction :=
  s.transactions.find? (fun t => decide (t.idempotency_key = key))

/-- Model of `transaction_repo.get_by_transaction_id`. -/
def get_by_transaction_id (s : Store) (tid : Option Nat) : Option Transaction :=
  match tid with
  | none => none
  | some tid => s.transactions.find? (fun t => decide (t.transaction_id = tid))

/-- Field updates performed by `update_transaction_status` on the fetched
row: assign `status`; assign `completed_at = now()` when the new status is
`COMPLETED`; assign `error_message` when a truthy (non-empty) message was
passed. -/
def apply_status (t : Transaction) (status : String) (error_message : Option String)
    (now : Nat) : Transaction :=
  let t1 := { t with status := status }
  let t2 := if t1.status = "COMPLETED" then { t1 with completed_at := some now } else t1
  match error_message with
  | some m => if m = "" then t2 else { t2 with error_message := some m }
  | none => t2

/-- Model of `transaction_repo.update_transaction_status`: fetches the row by
`transaction_id` (a unique column) and mutates it in place; no commit.  The
service's failure path passes `None` for the id, in which case nothing is
found and nothing changes. -/
def update_transaction_status (s : Store) (tid : Option Nat) (status : String)
    (error_message : Option String) : Store :=
  match tid with
  | none => s
  | some tid =>
      { s with transactions := s.transactions.map (fun t =>
          if t.transaction_id = tid then apply_status t status error_message s.now else t) }

/-- Model of `transaction_repo.create_transaction`: inserts a PENDING row
and commits at once (the function body contains its own `db.commit()`).  In
the staged engine its movement call sites are unreachable: the `TypeError`
at the preceding lock step aborts every movement first. -/
def create_transaction (s : Store) (idem : String) (ttype : String) (uid : Int)
    (aid : Nat) (amount : Money) (meta : Option String) : Transaction × Store :=
  let t : Transaction :=
    { transaction_id := s.next_tx_id, idempotency_key := idem,
      transaction_type := ttype, user_id := uid, asset_type_id := aid,
      amount := amount, status := "PENDING", transaction_metadata := meta,
      error_message := none, completed_at := none }
  (t, { s with transactions := s.transactions ++ [t], next_tx_id := s.next_tx_id + 1 })

/-- Model of `wallet_repo.get_wallet_by_user_and_asset`: non-locking lookup
by the logical key `(user_id, asset_type_id)`. -/
def get_wallet_by_user_and_asset (ws : List Wallet) (uid : Int) (aid : Nat) :
    Option Wallet :=
  ws.find? (fun w => decide (w.user_id = uid ∧ w.asset_type_id = aid))

/-- Model of `wallet_repo.get_wallet_with_lock` (`wallet_repository.py`
line 45): TWO parameters, keyed by the wallet primary key, `SELECT ... FOR
UPDATE`.  The service invokes it with three arguments `(db, owner_user_id,
asset_type_id)` at every movement's step 3, which Python rejects with
`TypeError` during call binding — this lookup therefore never runs on any
engine path. -/
def get_wallet_with_lock (ws : List Wallet) (wallet_id : Nat) : Option Wallet :=
  ws.find? (fun w => decide (w.id = wallet_id))

/-- Model of `wallet_repo.create_wallet` for a user wallet: inserts a row
with balance 0, `is_system_wallet = False`, no system kind — and commits
(the function body contains its own `db.commit()`).  Unreachable from the
engine: the lock-step `TypeError` precedes its movement call sites. -/
def create_wallet (s : Store) (uid : Int) (aid : Nat) : Wallet × Store :=
  let w : Wallet :=
    { id := s.next_wallet_id, user_id := uid, asset_type_id := aid,
      balance := 0, is_system_wallet := false, system_wallet_type := none }
  (w, { s with wallets := s.wallets ++ [w], next_wallet_id := s.next_wallet_id + 1 })

/-- Model of `wallet_repo.update_wallet_balance`: the source takes an `int`
`wallet_id` and re-fetches the row by primary key; no commit.  The service's
call sites pass the ORM entity instead of an id, but those sites sit after
the lock-step `TypeError` and never execute. -/
def update_wallet_balance (ws : List Wallet) (wid : Nat) (nb : Money) : List Wallet :=
  ws.map (fun w => if w.id = wid then { w with balance := nb } else w)

/-- Model of `ledger_repo.create_ledger_entry`: appends one entry and
flushes (no commit).  Unreachable from the engine for the same reason. -/
def create_ledger_entry (s : Store) (e : LedgerEntry) : Store :=
  { s with ledger_entries := s.ledger_entries ++ [e] }

/-- Model of the `db.query(AssetType).filter(AssetType.code == code).first()` lookup. -/
def find_asset (s : Store) (code : String) : Option AssetType :=
  s.asset_types.find? (fun a => decide (a.code = code))

/-! ## Transaction engine (`app/services/transaction_service.py`) -/

/-- Message of the `TypeError` Python raises when the service's
three-argument call reaches the two-parameter `get_wallet_with_lock`. -/
def lock_arity_type_error_msg : String :=
  "get_wallet_with_lock() takes 2 positional arguments but 3 were given"

/-- Model of `process_topup`.  Step 1: idempotency short-circuit (return the
stored row unchanged).  Step 2: asset resolution; `ValueError` when the code
is unknown (caught by the catch-all handler, which rolls back an unchanged
session, no-ops the FAILED update — `transaction_id` is unbound, so `None`
is passed — commits and re-raises).  Step 3:
`get_wallet_with_lock(db, SYSTEM_USER_IDS["TREASURY"], asset_type.id)` —
three arguments to the two-parameter repository function — raises
`TypeError` before any query; the same handler runs and re-raises it.
Everything after step 3 (treasury presence check, lazy wallet creation,
PENDING insert, balance writes, ledger appends, COMPLETED update) is
unreachable. -/
def process_topup (s : Store) (r : MovementRequest) : EngineResult :=
  match get_by_idempotency_key s r.idempotency_key with
  | some existing => ⟨.ok existing, s, []⟩
  | none =>
    match find_asset s r.asset_type with
    | none =>
        ⟨.error (.valueError ("Asset type " ++ r.asset_type ++ " not found")), s, []⟩
    | some _ => ⟨.error (.typeError lock_arity_type_error_msg), s, []⟩

/-- Model of `process_bonus`: identical reachable shape — the `TypeError` is
raised at `get_wallet_with_lock(db, SYSTEM_USER_IDS["MARKETING"],
asset_type.id)`, so the marketing-wallet check, the lazy creation and the
funds check of step 4 are unreachable. -/
def process_bonus (s : Store) (r : MovementRequest) : EngineResult :=
  match get_by_idempotency_key s r.idempotency_key with
  | some existing => ⟨.ok existing, s, []⟩
  | none =>
    match find_asset s r.asset_type with
    | none =>
        ⟨.error (.valueError ("Asset type " ++ r.asset_type ++ " not found")), s, []⟩
    | some _ => ⟨.error (.typeError lock_arity_type_error_msg), s, []⟩

/-- Model of `process_spend`: identical reachable shape — the `TypeError` is
raised at `get_wallet_with_lock(db, SYSTEM_USER_IDS["REVENUE"],
asset_type.id)`, so the revenue-wallet check, the lazy user-wallet creation
and the funds check of step 5 are unreachable. -/
def process_spend (s : Store) (r : MovementRequest) : EngineResult :=
  match get_by_idempotency_key s r.idempotency_key with
  | some existing => ⟨.ok existing, s, []⟩
  | none =>
    match find_asset s r.asset_type with
    | none =>
        ⟨.error (.valueError ("Asset type " ++ r.asset_type ++ " not found")), s, []⟩
    | some _ => ⟨.error (.typeError lock_arity_type_error_msg), s, []⟩

/-- Movement kinds exposed by the engine. -/
inductive Kind where
  | topup
  | bonus
  | spend
deriving Repr, DecidableEq

/-- Durable store after one engine operation. -/
def run_op (k : Kind) (s : Store) (r : MovementRequest) : Store :=
  match k with
  | .topup => (process_topup s r).store
  | .bonus => (process_bonus s r).store
  | .spend => (process_spend s r).store

/-- Durable store after a sequence of engine operations. -/
def run_seq (ops : List (Kind × MovementRequest)) (s : Store) : Store :=
  match ops with
  | [] => s
  | (k, r) :: rest => run_seq rest (run_op k s r)

/-- Non-negativity of every non-system wallet (spec §8 invariant 3). -/
def NonNegInv (s : Store) : Prop :=
  ∀ w ∈ s.wallets, w.is_system_wallet = false → 0 ≤ w.balance

instance : DecidablePred NonNegInv := fun s => by unfold NonNegInv; infer_instance

/-! ## Concrete fixtures used by witnesses and counterexamples -/

/-- Sample asset (id 1, code COINS). -/
def coinAsset : AssetType :=
  { id := 1, code := "COINS", display_name := "Coins", is_active := true }

/-- Sample treasury wallet for COINS. -/
def treasuryWallet : Wallet :=
  { id := 1, user_id := -1, asset_type_id := 1, balance := 1000000,
    is_system_wallet := true, system_wallet_type := some "TREASURY" }

/-- Sample marketing wallet for COINS. -/
def marketingWallet : Wallet :=
  { id := 2, user_id := -2, asset_type_id := 1, balance := 500,
    is_system_wallet := true, system_wallet_type := some "MARKETING" }

/-- Sample revenue wallet for COINS. -/
def revenueWallet : Wallet :=
  { id := 3, user_id := -3, asset_type_id := 1, balance := 0,
    is_system_wallet := true, system_wallet_type := some "REVENUE" }

/-- Sample wallet of user 2 holding 50 COINS. -/
def user2Wallet : Wallet :=
  { id := 4, user_id := 2, asset_type_id := 1, balance := 50,
    is_system_wallet := false, system_wallet_type := none }

/-- Sample provisioned store: one asset, the three system wallets, one
funded user wallet, no transactions yet. -/
def baseStore : Store :=
  { asset_types := [coinAsset],
    wallets := [treasuryWallet, marketingWallet, revenueWallet, user2Wallet],
    transactions := [], ledger_entries := [],
    next_wallet_id := 5, next_tx_id := 1, now := 40 }

/-- Sample already-stored transaction (status FAILED) under key "dup". -/
def storedTx : Transaction :=
  { transaction_id := 0, idempotency_key := "dup", transaction_type := "TOPUP",
    user_id := 2, asset_type_id := 1, amount := 10, status := "FAILED",
    transaction_metadata := none, error_message := some "x", completed_at := none }

/-- Sample store already holding `storedTx`. -/
def storeWithTx : Store := { baseStore with transactions := [storedTx] }

/-- Sample top-up request under the consumed key "dup". -/
def reqDup : MovementRequest :=
  { idempotency_key := "dup", user_id := 2, asset_type := "COINS", amount := 10,
    transaction_metadata := none }

/-- Sample top-up request for user 2, fresh key. -/
def reqFresh : MovementRequest :=
  { idempotency_key := "kw", user_id := 2, asset_type := "COINS", amount := 10,
    transaction_metadata := none }

/-- Sample spend request naming user 7, who has no wallet. -/
def reqSpend7 : MovementRequest :=
  { idempotency_key := "ks7", user_id := 7, asset_type := "COINS", amount := 5,
    transaction_metadata := none }

/-- Sample bonus request exceeding the marketing balance of 500. -/
def reqBonus600 : MovementRequest :=
  { idempotency_key := "kb", user_id := 2, asset_type := "COINS", amount := 600,
    transaction_metadata := none }

/-- Sample store without any asset type. -/
def noAssetStore : Store := { baseStore with asset_types := [] }

/-- Sample store whose treasury wallet is missing. -/
def noTreasuryStore : Store :=
  { baseStore with wallets := [marketingWallet, revenueWallet, user2Wallet] }

/-- Sample PENDING transaction with id 5. -/
def pendingTx5 : Transaction :=
  { transaction_id := 5, idempotency_key := "p1", transaction_type := "TOPUP",
    user_id := 2, asset_type_id := 1, amount := 10, status := "PENDING",
    transaction_metadata := none, error_message := none, completed_at := none }

/-- Sample store holding `pendingTx5`. -/
def storePending : Store := { baseStore with transactions := [pendingTx5], next_tx_id := 6 }

/-! ## Reachable-behaviour lemmas for the engine -/

/-- Step 1 of every kind: a stored transaction with the request's
idempotency key is returned unchanged, with no writes and no lock
requests. -/
theorem process_short_circuit {s : Store} {r : MovementRequest} {t : Transaction}
    (h : get_by_idempotency_key s r.idempotency_key = some t) :
    process_topup s r = ⟨.ok t, s, []⟩
    ∧ process_bonus s r = ⟨.ok t, s, []⟩
    ∧ process_spend s r = ⟨.ok t, s, []⟩ := by
  refine ⟨?_, ?_, ?_⟩
  · unfold process_topup
    rw [h]
  · unfold process_bonus
    rw [h]
  · unfold process_spend
    rw [h]

/-- Step 2 of every kind: an unresolvable asset code raises the builtin
`ValueError`, with no writes. -/
theorem process_asset_missing {s : Store} {r : MovementRequest}
    (hidem : get_by_idempotency_key s r.idempotency_key = none)
    (ha : find_asset s r.asset_type = none) :
    process_topup s r
      = ⟨.error (.valueError ("Asset type " ++ r.asset_type ++ " not found")), s, []⟩
    ∧ process_bonus s r
      = ⟨.error (.valueError ("Asset type " ++ r.asset_type ++ " not found")), s, []⟩
    ∧ process_spend s r
      = ⟨.error (.valueError ("Asset type " ++ r.asset_type ++ " not found")), s, []⟩ := by
  refine ⟨?_, ?_, ?_⟩
  · unfold process_topup
    rw [hidem, ha]
  · unfold process_bonus
    rw [hidem, ha]
  · unfold process_spend
    rw [hidem, ha]

/-- Step 3 of every kind: once the asset resolves, the three-argument call
to the two-parameter `get_wallet_with_lock` raises `TypeError`; the handler
rolls back an unchanged session and re-raises, so the store is untouched and
no lock was requested. -/
theorem process_lock_type_error {s : Store} {r : MovementRequest} {a : AssetType}
    (hidem : get_by_idempotency_key s r.idempotency_key = none)
    (ha : find_asset s r.asset_type = some a) :
    process_topup s r = ⟨.error (.typeError lock_arity_type_error_msg), s, []⟩
    ∧ process_bonus s r = ⟨.error (.typeError lock_arity_type_error_msg), s, []⟩
    ∧ process_spend s r = ⟨.error (.typeError lock_arity_type_error_msg), s, []⟩ := by
  refine ⟨?_, ?_, ?_⟩
  · unfold process_topup
    rw [hidem, ha]
  · unfold process_bonus
    rw [hidem, ha]
  · unfold process_spend
    rw [hidem, ha]

/-- The staged engine never writes: every path of every kind returns the
store it was given. -/
theorem process_store_unchanged (s : Store) (r : MovementRequest) :
    (process_topup s r).store = s
    ∧ (process_bonus s r).store = s
    ∧ (process_spend s r).store = s := by
  cases hidem : get_by_idempotency_key s r.idempotency_key with
  | some t =>
    obtain ⟨h1, h2, h3⟩ := process_short_circuit hidem
    rw [h1, h2, h3]
    exact ⟨rfl, rfl, rfl⟩
  | none =>
    cases ha : find_asset s r.asset_type with
    | none =>
      obtain ⟨h1, h2, h3⟩ := process_asset_missing hidem ha
      rw [h1, h2, h3]
      exact ⟨rfl, rfl, rfl⟩
    | some a =>
      obtain ⟨h1, h2, h3⟩ := process_lock_type_error hidem ha
      rw [h1, h2, h3]
      exact ⟨rfl, rfl, rfl⟩

/-- The staged engine never issues a lock request: the `TypeError` occurs
during call binding, before any `SELECT ... FOR UPDATE`. -/
theorem process_no_locks (s : Store) (r : MovementRequest) :
    (process_topup s r).locks = []
    ∧ (process_bonus s r).locks = []
    ∧ (process_spend s r).locks = [] := by
  cases hidem : get_by_idempotency_key s r.idempotency_key with
  | some t =>
    obtain ⟨h1, h2, h3⟩ := process_short_circuit hidem
    rw [h1, h2, h3]
    exact ⟨rfl, rfl, rfl⟩
  | none =>
    cases ha : find_asset s r.asset_type with
    | none =>
      obtain ⟨h1, h2, h3⟩ := process_asset_missing hidem ha
      rw [h1, h2, h3]
      exact ⟨rfl, rfl, rfl⟩
    | some a =>
      obtain ⟨h1, h2, h3⟩ := process_lock_type_error hidem ha
      rw [h1, h2, h3]
      exact ⟨rfl, rfl, rfl⟩

/-- The idempotency short-circuit is the staged engine's only
transaction-returning path: a call returns `t` exactly when `t` is already
stored under the request's key. -/
theorem process_ok_iff (s : Store) (r : MovementRequest) (t : Transaction) :
    ((process_topup s r).result = .ok t
      ↔ get_by_idempotency_key s r.idempotency_key = some t)
    ∧ ((process_bonus s r).result = .ok t
      ↔ get_by_idempotency_key s r.idempotency_key = some t)
    ∧ ((process_spend s r).result = .ok t
      ↔ get_by_idempotency_key s r.idempotency_key = some t) := by
  cases hidem : get_by_idempotency_key s r.idempotency_key with
  | some t0 =>
    obtain ⟨h1, h2, h3⟩ := process_short_circuit hidem
    rw [h1, h2, h3]
    refine ⟨?_, ?_, ?_⟩ <;>
      exact ⟨fun hok => by simp only [Except.ok.injEq] at hok; rw [hok], fun hk => by
        simp only [Option.some.injEq] at hk; rw [hk]⟩
  | none =>
    cases ha : find_asset s r.asset_type with
    | none =>
      obtain ⟨h1, h2, h3⟩ := process_asset_missing hidem ha
      rw [h1, h2, h3]
      refine ⟨?_, ?_, ?_⟩ <;> exact ⟨(fun hok => by cases hok), (fun hk => by cases hk)⟩
    | some a =>
      obtain ⟨h1, h2, h3⟩ := process_lock_type_error hidem ha
      rw [h1, h2, h3]
      refine ⟨?_, ?_, ?_⟩ <;> exact ⟨(fun hok => by cases hok), (fun hk => by cases hk)⟩

/-- The staged engine never raises `InsufficientFundsError`: the funds
checks sit beyond the lock-step `TypeError`. -/
theorem process_never_insufficient (s : Store) (r : MovementRequest) (m : String) :
    (process_topup s r).result ≠ .error (.insufficientFunds m)
    ∧ (process_bonus s r).result ≠ .error (.insufficientFunds m)
    ∧ (process_spend s r).result ≠ .error (.insufficientFunds m) := by
  cases hidem : get_by_idempotency_key s r.idempotency_key with
  | some t =>
    obtain ⟨h1, h2, h3⟩ := process_short_circuit hidem
    rw [h1, h2, h3]
    refine ⟨?_, ?_, ?_⟩ <;> exact fun hc => by cases hc
  | none =>
    cases ha : find_asset s r.asset_type with
    | none =>
      obtain ⟨h1, h2, h3⟩ := process_asset_missing hidem ha
      rw [h1, h2, h3]
      refine ⟨?_, ?_, ?_⟩ <;> exact fun hc => by cases hc
    | some a =>
      obtain ⟨h1, h2, h3⟩ := process_lock_type_error hidem ha
      rw [h1, h2, h3]
      refine ⟨?_, ?_, ?_⟩ <;> exact fun hc => by cases hc

/-- One engine operation of any kind leaves the durable store unchanged. -/
theorem run_op_store (k : Kind) (s : Store) (r : MovementRequest) :
    run_op k s r = s := by
  cases k with
  | topup => exact (process_store_unchanged s r).1
  | bonus => exact (process_store_unchanged s r).2.1
  | spend => exact (process_store_unchanged s r).2.2

/-- Any sequence of engine operations leaves the durable store unchanged. -/
theorem run_seq_store (ops : List (Kind × MovementRequest)) :
    ∀ s : Store, run_seq ops s = s := by
  induction ops with
  | nil => intro s; rfl
  | cons p rest ih =>
    intro s
    show run_seq rest (run_op p.1 s p.2) = s
    rw [run_op_store, ih]

/-! ## Claims -/

/-- C1: code bug.  The claim describes the engine's documented and tested
double-entry outcome, but the staged source never completes a movement: at
the concrete top-up below — fresh key, resolvable asset, treasury present —
the call fails with the `TypeError` of the arity-mismatched lock call and
changes nothing, and in general no movement of any kind ever appends a
ledger entry, so the completing runs the claim quantifies over do not occur. -/
theorem claim_C1_no_completed_movement :
    (process_topup baseStore reqFresh).result
      = .error (.typeError lock_arity_type_error_msg)
    ∧ (process_topup baseStore reqFresh).store = baseStore
    ∧ (∀ (s : Store) (r : MovementRequest),
        (process_topup s r).store.ledger_entries = s.ledger_entries
        ∧ (process_bonus s r).store.ledger_entries = s.ledger_entries
        ∧ (process_spend s r).store.ledger_entries = s.ledger_entries) := by
  refine ⟨by decide, by decide, fun s r => ?_⟩
  obtain ⟨h1, h2, h3⟩ := process_store_unchanged s r
  rw [h1, h2, h3]
  exact ⟨rfl, rfl, rfl⟩

/-- C2: whenever a movement of any kind surfaces an error, the durable store
is exactly the store before the call: no transaction row, no ledger entry,
no created wallet and no balance change persists.  On every reachable error
path the failure precedes the first write, so the rollback and the
best-effort FAILED update (which finds no row) act on an unchanged
session. -/
theorem claim_C2_state_unchanged_on_error (s : Store) (r : MovementRequest) :
    (∀ e, (process_topup s r).result = .error e → (process_topup s r).store = s)
    ∧ (∀ e, (process_bonus s r).result = .error e → (process_bonus s r).store = s)
    ∧ (∀ e, (process_spend s r).result = .error e → (process_spend s r).store = s) :=
  ⟨fun _ _ => (process_store_unchanged s r).1,
   fun _ _ => (process_store_unchanged s r).2.1,
   fun _ _ => (process_store_unchanged s r).2.2⟩

/-- C2 witness: the erroring concrete top-up leaves the concrete store
untouched. -/
theorem claim_C2_state_unchanged_on_error_witness :
    (process_topup baseStore reqFresh).store = baseStore :=
  (claim_C2_state_unchanged_on_error baseStore reqFresh).1
    (.typeError lock_arity_type_error_msg) (by decide)

/-- C3: a movement call whose idempotency key matches a stored transaction
returns that transaction unchanged — whatever its status — with no writes
and no lock requests; consequently, whenever a call returns a transaction, a
second call with the identical body returns the same transaction and leaves
the entire store (in particular every wallet balance) unchanged.  In the
staged engine the short-circuit is the only transaction-returning path, so
the replay law follows from it alone. -/
theorem claim_C3_idempotent_replay (s : Store) (r : MovementRequest) :
    (∀ t, get_by_idempotency_key s r.idempotency_key = some t →
        process_topup s r = ⟨.ok t, s, []⟩
        ∧ process_bonus s r = ⟨.ok t, s, []⟩
        ∧ process_spend s r = ⟨.ok t, s, []⟩)
    ∧ (∀ t,
        ((process_topup s r).result = .ok t →
          process_topup (process_topup s r).store r
            = ⟨.ok t, (process_topup s r).store, []⟩)
        ∧ ((process_bonus s r).result = .ok t →
          process_bonus (process_bonus s r).store r
            = ⟨.ok t, (process_bonus s r).store, []⟩)
        ∧ ((process_spend s r).result = .ok t →
          process_spend (process_spend s r).store r
            = ⟨.ok t, (process_spend s r).store, []⟩)) := by
  constructor
  · intro t h
    exact process_short_circuit h
  · intro t
    refine ⟨fun hok => ?_, fun hok => ?_, fun hok => ?_⟩
    · have hk := ((process_ok_iff s r t).1).mp hok
      rw [(process_store_unchanged s r).1]
      exact (process_short_circuit hk).1
    · have hk := ((process_ok_iff s r t).2.1).mp hok
      rw [(process_store_unchanged s r).2.1]
      exact (process_short_circuit hk).2.1
    · have hk := ((process_ok_iff s r t).2.2).mp hok
      rw [(process_store_unchanged s r).2.2]
      exact (process_short_circuit hk).2.2

/-- C3 witness: the short-circuit on a stored FAILED transaction and its
identical replay, at concrete inputs. -/
theorem claim_C3_idempotent_replay_witness :
    process_topup storeWithTx reqDup = ⟨.ok storedTx, storeWithTx, []⟩
    ∧ process_topup (process_topup storeWithTx reqDup).store reqDup
        = ⟨.ok storedTx, (process_topup storeWithTx reqDup).store, []⟩ :=
  ⟨((claim_C3_idempotent_replay storeWithTx reqDup).1 storedTx (by decide)).1,
   (((claim_C3_idempotent_replay storeWithTx reqDup).2 storedTx).1 (by decide))⟩

/-- C4: code bug.  At the concrete top-up below every precondition of the
claim holds — fresh idempotency key, asset code resolving to `coinAsset`,
treasury system wallet present — yet the staged source raises the
`TypeError` of the three-argument call to the two-parameter
`get_wallet_with_lock` (`wallet_repository.py` line 45) and returns no
transaction; no COMPLETED row is created and no balance moves. -/
theorem claim_C4_topup_type_error :
    get_by_idempotency_key baseStore reqFresh.idempotency_key = none
    ∧ find_asset baseStore reqFresh.asset_type = some coinAsset
    ∧ get_wallet_by_user_and_asset baseStore.wallets TREASURY_USER_ID coinAsset.id
        = some treasuryWallet
    ∧ (process_topup baseStore reqFresh).result
        = .error (.typeError lock_arity_type_error_msg)
    ∧ (process_topup baseStore reqFresh).store = baseStore := by
  refine ⟨by decide, by decide, by decide, by decide, by decide⟩

/-- C5: code bug.  The funds checks of `process_bonus` (line 167) and
`process_spend` (line 294) are unreachable: at the concrete bonus below the
marketing balance (500) is strictly below the amount (600), yet the call
fails with `TypeError`, not `InsufficientFundsError`; the concrete spend by
wallet-less user 7 likewise fails with `TypeError` and creates no wallet;
and in general no movement of any kind ever raises
`InsufficientFundsError`. -/
theorem claim_C5_funds_checks_unreachable :
    marketingWallet.balance < reqBonus600.amount
    ∧ (process_bonus baseStore reqBonus600).result
        = .error (.typeError lock_arity_type_error_msg)
    ∧ (process_spend baseStore reqSpend7).result
        = .error (.typeError lock_arity_type_error_msg)
    ∧ (process_spend baseStore reqSpend7).store = baseStore
    ∧ (∀ (s : Store) (r : MovementRequest) (m : String),
        (process_topup s r).result ≠ .error (.insufficientFunds m)
        ∧ (process_bonus s r).result ≠ .error (.insufficientFunds m)
        ∧ (process_spend s r).result ≠ .error (.insufficientFunds m)) :=
  ⟨by decide, by decide, by decide, by decide,
   fun s r m => process_never_insufficient s r m⟩

/-- C6: for every wallet with `is_system_wallet = false`, a non-negative
balance is preserved through every state reachable by any sequence of
top-up, bonus and spend operations.  The preservation is degenerate: the
staged engine never mutates any wallet (every movement halts before its
first write — see the C1/C4 findings), so the whole wallet table, and with
it the invariant, is carried through unchanged. -/
theorem claim_C6_non_negativity (s0 : Store) (ops : List (Kind × MovementRequest))
    (hNN : NonNegInv s0) : NonNegInv (run_seq ops s0) := by
  rw [run_seq_store ops s0]
  exact hNN

/-- C6 witness: the invariant after a concrete sequence of one movement of
each kind, instantiated at the non-system wallet of user 2. -/
theorem claim_C6_non_negativity_witness : 0 ≤ user2Wallet.balance :=
  claim_C6_non_negativity baseStore
    [(.topup, reqFresh), (.bonus, reqBonus600), (.spend, reqSpend7)]
    (by decide) user2Wallet (by decide) (by decide)

/-- C7: code bug.  The claim describes a lock-acquisition order, but the
staged engine never requests any wallet lock: at the concrete top-up below
(and on every path of every kind) the three-argument call to the
two-parameter `get_wallet_with_lock` raises `TypeError` during call binding,
before any `SELECT ... FOR UPDATE` is issued, so there is no lock-request
ordering at all. -/
theorem claim_C7_no_lock_requests :
    (process_topup baseStore reqFresh).result
      = .error (.typeError lock_arity_type_error_msg)
    ∧ (process_topup baseStore reqFresh).locks = []
    ∧ (∀ (s : Store) (r : MovementRequest),
        (process_topup s r).locks = []
        ∧ (process_bonus s r).locks = []
        ∧ (process_spend s r).locks = []) :=
  ⟨by decide, by decide, fun s r => process_no_locks s r⟩

/-- C8 counterexample: the unknown-asset failure surfaces the untyped
builtin `ValueError` (class "ValueError"), not a typed `AssetUnknown` kind;
and with the treasury wallet missing the failure is the builtin `TypeError`
of the arity-mismatched lock call — the same result as with the treasury
wallet present — not a typed `SystemWalletMissing` kind, so the absence of
the system wallet is not distinguishable at the boundary at all. -/
theorem claim_C8_typed_error_kinds_counterexample :
    (process_topup noAssetStore reqFresh).result
      = .error (.valueError "Asset type COINS not found")
    ∧ errClass (.valueError "Asset type COINS not found") = "ValueError"
    ∧ (process_topup noTreasuryStore reqFresh).result
      = .error (.typeError lock_arity_type_error_msg)
    ∧ errClass (.typeError lock_arity_type_error_msg) = "TypeError"
    ∧ (process_topup noTreasuryStore reqFresh).result
      = (process_topup baseStore reqFresh).result := by
  refine ⟨by decide, rfl, by decide, rfl, by decide⟩

/-- C8 amended: an unknown asset code makes every movement kind raise the
untyped builtin `ValueError` with message "Asset type X not found"; the
missing-system-wallet check is dead code — once the asset resolves, every
movement fails with the builtin `TypeError` of the arity-mismatched lock
call whether or not the system wallet exists — and no typed `AssetUnknown`
or `SystemWalletMissing` kinds exist; the two builtins are distinguishable
as exception classes from each other and from the engine's typed kinds, but
neither identifies a missing system wallet. -/
theorem claim_C8_typed_error_kinds_amended (s : Store) (r : MovementRequest)
    (hidem : get_by_idempotency_key s r.idempotency_key = none) :
    (find_asset s r.asset_type = none →
      (process_topup s r).result
          = .error (.valueError ("Asset type " ++ r.asset_type ++ " not found"))
      ∧ (process_bonus s r).result
          = .error (.valueError ("Asset type " ++ r.asset_type ++ " not found"))
      ∧ (process_spend s r).result
          = .error (.valueError ("Asset type " ++ r.asset_type ++ " not found")))
    ∧ (∀ a, find_asset s r.asset_type = some a →
      (process_topup s r).result = .error (.typeError lock_arity_type_error_msg)
      ∧ (process_bonus s r).result = .error (.typeError lock_arity_type_error_msg)
      ∧ (process_spend s r).result = .error (.typeError lock_arity_type_error_msg))
    ∧ (∀ m m' : String,
        errClass (.valueError m) ≠ errClass (.typeError m')
        ∧ errClass (.valueError m) ≠ errClass (.insufficientFunds m')
        ∧ errClass (.typeError m) ≠ errClass (.insufficientFunds m')
        ∧ errClass (.typeError m) ≠ errClass (.duplicateTransaction m')) := by
  refine ⟨fun ha => ?_, fun a ha => ?_, fun m m' => ?_⟩
  · obtain ⟨h1, h2, h3⟩ := process_asset_missing hidem ha
    rw [h1, h2, h3]
    exact ⟨rfl, rfl, rfl⟩
  · obtain ⟨h1, h2, h3⟩ := process_lock_type_error hidem ha
    rw [h1, h2, h3]
    exact ⟨rfl, rfl, rfl⟩
  · exact ⟨by simp [errClass], by simp [errClass], by simp [errClass], by simp [errClass]⟩

/-- C8 amended witness: the amended statement at the concrete stores of the
counterexample. -/
theorem claim_C8_typed_error_kinds_amended_witness :
    (process_topup noAssetStore reqFresh).result
      = .error (.valueError ("Asset type " ++ reqFresh.asset_type ++ " not found"))
    ∧ (process_topup noTreasuryStore reqFresh).result
      = .error (.typeError lock_arity_type_error_msg) :=
  ⟨((claim_C8_typed_error_kinds_amended noAssetStore reqFresh (by decide)).1
      (by decide)).1,
   (((claim_C8_typed_error_kinds_amended noTreasuryStore reqFresh (by decide)).2.1
      coinAsset (by decide)).1)⟩

/-- C9 counterexample: calling the status-update operation on an existing
transaction with new status COMPLETED and a non-empty error message sets
`error_message` even though the new status is not FAILED — the source guards
the assignment on the truthiness of the argument, not on the status — so
"error_message is set if and only if the new status is COMPLETED" fails as
stated. -/
theorem claim_C9_set_status_counterexample :
    (update_transaction_status storePending (some 5) "COMPLETED" (some "oops")).transactions
      = [{ transaction_id := 5, idempotency_key := "p1", transaction_type := "TOPUP",
           user_id := 2, asset_type_id := 1, amount := 10, status := "COMPLETED",
           transaction_metadata := none, error_message := some "oops",
           completed_at := some 40 }]
    ∧ "COMPLETED" ≠ "FAILED" := by
  refine ⟨by decide, by decide⟩

theorem apply_status_eq (t : Transaction) (st : String) (em : Option String)
    (now : Nat) :
    apply_status t st em now =
      { t with
        status := st,
        completed_at := (if st = "COMPLETED" then some now else t.completed_at),
        error_message :=
          (match em with
           | some m => if m = "" then t.error_message else some m
           | none => t.error_message) } := by
  rcases em with _ | m
  · unfold apply_status
    by_cases h : st = "COMPLETED" <;> simp [h]
  · unfold apply_status
    by_cases h : st = "COMPLETED" <;> by_cases hm : m = "" <;> simp [h, hm]

theorem apply_status_transaction_id (t : Transaction) (st : String)
    (em : Option String) (now : Nat) :
    (apply_status t st em now).transaction_id = t.transaction_id := by
  rw [apply_status_eq]

theorem get_tx_after_update (s : Store) (tid : Nat) (st : String)
    (em : Option String) :
    get_by_transaction_id (update_transaction_status s (some tid) st em) (some tid)
      = (get_by_transaction_id s (some tid)).map
          (fun t => if t.transaction_id = tid then apply_status t st em s.now else t) := by
  simp only [get_by_transaction_id, update_transaction_status]
  rw [List.find?_map]
  have hp : ((fun t => decide (t.transaction_id = tid)) ∘
      (fun t => if t.transaction_id = tid then apply_status t st em s.now else t))
      = (fun t : Transaction => decide (t.transaction_id = tid)) := by
    funext t
    by_cases h : t.transaction_id = tid
    · simp [h, apply_status_transaction_id]
    · simp [h]
  rw [hp]

/-- C9 amended: on an existing transaction, the status-update operation sets
the status to the given value, sets `completed_at = now()` exactly when the
new status is COMPLETED (leaving it untouched otherwise), and sets
`error_message` exactly when a non-empty `error_message` argument is passed
(leaving it untouched otherwise) — regardless of the new status. -/
theorem claim_C9_set_status_amended (s : Store) (tid : Nat) (st : String)
    (em : Option String) (t : Transaction)
    (h : get_by_transaction_id s (some tid) = some t) :
    get_by_transaction_id (update_transaction_status s (some tid) st em) (some tid)
      = some (apply_status t st em s.now)
    ∧ (apply_status t st em s.now).status = st
    ∧ (st = "COMPLETED" → (apply_status t st em s.now).completed_at = some s.now)
    ∧ (st ≠ "COMPLETED" → (apply_status t st em s.now).completed_at = t.completed_at)
    ∧ (∀ m, em = some m → m ≠ "" →
        (apply_status t st em s.now).error_message = some m)
    ∧ ((em = none ∨ em = some "") →
        (apply_status t st em s.now).error_message = t.error_message) := by
  have htid : t.transaction_id = tid := by
    unfold get_by_transaction_id at h
    have := List.find?_some h
    simpa using this
  refine ⟨?_, ?_, ?_, ?_, ?_, ?_⟩
  · rw [get_tx_after_update, h]
    simp [htid]
  · rw [apply_status_eq]
  · intro hc
    rw [apply_status_eq]
    simp [hc]
  · intro hc
    rw [apply_status_eq]
    simp [hc]
  · intro m hem hm
    subst hem
    rw [apply_status_eq]
    simp [hm]
  · intro hc
    rcases hc with hc | hc
    · subst hc
      rw [apply_status_eq]
    · subst hc
      rw [apply_status_eq]
      simp

/-- C9 amended witness: the amended statement applied to a concrete FAILED
update on `pendingTx5`. -/
theorem claim_C9_set_status_amended_witness :
    get_by_transaction_id
        (update_transaction_status storePending (some 5) "FAILED" (some "boom")) (some 5)
      = some (apply_status pendingTx5 "FAILED" (some "boom") storePending.now)
    ∧ (apply_status pendingTx5 "FAILED" (some "boom") storePending.now).status = "FAILED" :=
  ⟨(claim_C9_set_status_amended storePending 5 "FAILED" (some "boom") pendingTx5
      (by decide)).1,
   (claim_C9_set_status_amended storePending 5 "FAILED" (some "boom") pendingTx5
      (by decide)).2.1⟩

/-- C10: code bug.  The claim presupposes a movement that fails after
`create_transaction` has committed its PENDING row, but no movement ever
reaches `create_transaction`: at the concrete failing top-up below the
`TypeError` of the lock step aborts the call first, so no row is inserted,
the best-effort FAILED update finds nothing (`transaction_id` is unbound and
`None` is passed), the idempotency key is NOT consumed, and an identical
retry re-runs the movement and fails the same way instead of
short-circuiting. -/
theorem claim_C10_no_pending_row_on_failure :
    (process_topup baseStore reqFresh).result
      = .error (.typeError lock_arity_type_error_msg)
    ∧ (process_topup baseStore reqFresh).store.transactions = baseStore.transactions
    ∧ get_by_idempotency_key (process_topup baseStore reqFresh).store
        reqFresh.idempotency_key = none
    ∧ process_topup (process_topup baseStore reqFresh).store reqFresh
        = process_topup baseStore reqFresh := by
  refine ⟨by decide, by decide, by decide, by decide⟩

end WalletService
